import Mathlib

/-!
Verification of the TuningSearch MCP server adapter (`src/index.ts`).

The TypeScript source is shallowly embedded in Lean:

* JavaScript numbers that hold quota counters and page numbers are modelled
  as `Int` (they are integral in every observable use; JS doubles are exact
  on integers of this magnitude).  The one floating-point operation,
  `Math.round((used / total) * 100)`, is modelled over `ℚ` with JS division
  by zero made explicit (`Infinity` / `NaN` sentinels), because JS number
  division never throws.
* `fetch` and its network effects are modelled by passing the outcome of the
  HTTP call (`FetchOutcome`) to the function as data; the functions
  `search` / `getQuota` become pure functions of that outcome, and
  `throw` becomes `Except.error`.
* `URLSearchParams` is modelled as the ordered list of appended
  `(key, value)` pairs; the percent-encoded serialization belongs to the
  library and is outside the adapter's code.
* JS truthiness tests from the source (`if (options.language)`,
  `if (options.page)`, `if (!apiKey)`) are embedded literally: a string is
  truthy iff non-empty, a number (here `Int`) is truthy iff nonzero.
-/

/-- The 9 supported language tags (`SUPPORTED_LANGUAGES` in `src/index.ts`). -/
def SUPPORTED_LANGUAGES : List String :=
  ["en", "zh", "zh-CN", "zh-TW", "fr", "de", "ja", "ko", "es"]

/-- One search result item (`results` array elements in `SearchResult`). -/
structure SearchItem where
  title : String
  url : String
  content : String
deriving Repr, DecidableEq

/-- `SearchResult` from `src/index.ts`: echoed query, items, optional
suggestions (`suggestions?: any[]`; observably a list of strings, joined
with `", "` by the formatter). -/
structure SearchResult where
  query : String
  results : List SearchItem
  suggestions : Option (List String)
deriving Repr, DecidableEq

/-- The optional `options` argument of `search` in `src/index.ts`. -/
structure SearchOptions where
  language : Option String := none
  page : Option Int := none
  safe : Option Nat := none
  time_range : Option String := none
deriving Repr, DecidableEq

/-- The query-parameter list built by `search` (`src/index.ts` lines 93-101):
`params.append('q', query)` always, then, when `options` is passed,
each optional parameter guarded exactly as in the source —
`if (options.language)` (string truthiness: non-empty),
`if (options.page)` (number truthiness: nonzero),
`if (options.safe !== undefined)` with value `options.safe ? '1' : '0'`
(number truthiness again), and `if (options.time_range)`. -/
def buildSearchParams (query : String) (options : Option SearchOptions) :
    List (String × String) :=
  ("q", query) ::
    (match options with
     | none => []
     | some o =>
       (match o.language with
        | some s => if s = "" then [] else [("language", s)]
        | none => []) ++
       (match o.page with
        | some n => if n = 0 then [] else [("page", toString n)]
        | none => []) ++
       (match o.safe with
        | some s => [("safe", if s = 0 then "0" else "1")]
        | none => []) ++
       (match o.time_range with
        | some t => if t = "" then [] else [("time_range", t)]
        | none => []))

/-- The value a `URLSearchParams`-style list serializes for key `k`:
the first pair with that key, if any. -/
def paramValue (ps : List (String × String)) (k : String) : Option String :=
  (ps.find? (fun p => p.1 = k)).map (fun p => p.2)

/-- The tool schema for `page` (`src/index.ts` line 157): `z.number().optional()`
puts no constraint beyond being a number, so every integer — in particular 0 —
validates. -/
def pageSchemaAccepts (_n : Int) : Bool :=
  true

/-- The parsed `{status, data}` JSON envelope (`ApiResponse<T>` in
`src/index.ts`). -/
structure ApiResponse (α : Type) where
  status : String
  data : α
deriving Repr, DecidableEq

/-- An HTTP response as `fetch` delivers it, with the body already parsed
into the envelope. -/
structure HttpResponse (α : Type) where
  status : Nat
  statusText : String
  body : ApiResponse α
deriving Repr, DecidableEq

/-- The outcome of the `fetch` call, passed to the embedded client functions
as data: either the network layer failed (`fetch` rejected) or a response
arrived. -/
inductive FetchOutcome (α : Type) where
  | networkError (msg : String)
  | response (r : HttpResponse α)
deriving Repr, DecidableEq

/-- `Response.ok` of the `fetch` API: status in the range 200-299. -/
def respOk (status : Nat) : Bool :=
  decide (200 ≤ status) && decide (status < 300)

/-- The post-fetch logic of `search` (`src/index.ts` lines 108-114): throw
`Search request failed: <status> <statusText>` when `!response.ok`, otherwise
return the envelope's `data` field (the envelope's own `status` field is
never read). A rejected `fetch` propagates as an error. -/
def searchFromOutcome (outcome : FetchOutcome SearchResult) :
    Except String SearchResult :=
  match outcome with
  | .networkError msg => .error msg
  | .response r =>
    if respOk r.status then .ok r.body.data
    else .error ("Search request failed: " ++ toString r.status ++ " " ++ r.statusText)

/-- The quota counters record (`QuotaInfo.quota` in `src/index.ts`).
Timestamps stay strings, as in the JSON. -/
structure QuotaCounters where
  userId : String
  monthlyQuota : Int
  extraQuota : Int
  usedQuota : Int
  totalQuota : Int
  plan : String
  expiresAt : Option String
  createdAt : String
  updatedAt : String
deriving Repr, DecidableEq

/-- The plan features record (`QuotaInfo.plan.features`). -/
structure PlanFeatures where
  monthlyQueries : Int
  qps : Int
deriving Repr, DecidableEq

/-- The plan record (`QuotaInfo.plan`). -/
structure PlanInfo where
  name : String
  price : Int
  features : PlanFeatures
deriving Repr, DecidableEq

/-- `QuotaInfo` from `src/index.ts`. -/
structure QuotaInfo where
  quota : QuotaCounters
  plan : PlanInfo
deriving Repr, DecidableEq

/-- The post-fetch logic of `getQuota` (`src/index.ts` lines 129-135):
throw `Quota request failed: <status> <statusText>` when `!response.ok`,
otherwise return the envelope's `data` field. -/
def getQuotaFromOutcome (outcome : FetchOutcome QuotaInfo) :
    Except String QuotaInfo :=
  match outcome with
  | .networkError msg => .error msg
  | .response r =>
    if respOk r.status then .ok r.body.data
    else .error ("Quota request failed: " ++ toString r.status ++ " " ++ r.statusText)

/-- The three-line block the search tool handler renders for one result item
(`src/index.ts` lines 190-192). -/
def formatItem (item : SearchItem) : String :=
  "Title: " ++ item.title ++ "\nContent: " ++ item.content ++ "\nLink: " ++ item.url

/-- The search-result text built by the search tool handler
(`src/index.ts` lines 190-204): the `Query: "<query>"` header, a blank
line, the item blocks joined by blank lines, and — only when `suggestions`
is present (`result.suggestions &&`) and non-empty (`.length > 0`) — a
trailing `\n\nSuggested queries: ` line with the suggestions joined by
`, `. -/
def formatSearchResult (r : SearchResult) : String :=
  "Query: \"" ++ r.query ++ "\"\n\n" ++
    String.intercalate "\n\n" (r.results.map formatItem) ++
    (match r.suggestions with
     | some s => if 0 < s.length then "\n\nSuggested queries: " ++ String.intercalate ", " s else ""
     | none => "")

/-- `Math.round` of JavaScript on a finite value: round half toward
positive infinity, i.e. `⌊x + 1/2⌋`. -/
def jsRound (q : ℚ) : Int :=
  ⌊q + 1 / 2⌋

/-- The string the template interpolates for
`Math.round((usedQuota / totalQuota) * 100)` (`src/index.ts` line 255).
JS number division never throws: with a zero denominator it yields `NaN`
(0/0) or a signed `Infinity`, which `Math.round` maps to itself and the
template renders literally; on a nonzero denominator the computation is
modelled exactly over `ℚ`. -/
def jsQuotaUsagePct (used total : Int) : String :=
  if total = 0 then
    if used = 0 then "NaN"
    else if 0 < used then "Infinity"
    else "-Infinity"
  else
    toString (jsRound ((used * 100 : ℚ) / (total : ℚ)))

/-- The quota text built by the quota tool handler (`src/index.ts` lines
249-258): the template literal rendered verbatim, including the
indentation whitespace of its second line. `new Date(updatedAt).toLocaleString()`
is locale- and timezone-dependent, so it enters as the `lastUpdated`
argument. -/
def formatQuota (info : QuotaInfo) (lastUpdated : String) : String :=
  "TuningSearch Quota Information:\n            \nPlan: " ++ info.plan.name ++
    "\nMonthly Quota: " ++ toString info.quota.monthlyQuota ++
    " queries\nUsed Quota: " ++ toString info.quota.usedQuota ++
    " queries\nRemaining Quota: " ++ toString (info.quota.totalQuota - info.quota.usedQuota) ++
    " queries\nQuota Usage: " ++ jsQuotaUsagePct info.quota.usedQuota info.quota.totalQuota ++
    "%\nQPS Limit: " ++ toString info.plan.features.qps ++
    " queries per second\n\nLast Updated: " ++ lastUpdated

/-- The response object a tool handler returns to the MCP transport:
one text content block, optionally flagged as an error. -/
structure ToolResponse where
  text : String
  isError : Bool := false
deriving Repr, DecidableEq

/-- The literal message both handlers return when the credential is missing
(`src/index.ts` lines 170 and 234). -/
def missingKeyMessage : String :=
  "Error: TUNINGSEARCH_API_KEY environment variable is not set"

/-- The `search` tool handler (`src/index.ts` lines 161-218), a total
function: read the credential (`if (!apiKey)` — absent or empty string is
falsy — return the error-flagged response without touching the network),
otherwise run the client on the fetch outcome; a successful result is
formatted, any thrown failure is caught and wrapped as
`Search error: <message>` with `isError: true`. The second component
records whether the HTTP client was invoked. The handler has no other
exit: it never throws past this boundary and never terminates the
process. -/
def searchToolHandler (apiKey : Option String)
    (outcome : FetchOutcome SearchResult) : ToolResponse × Bool :=
  match apiKey with
  | none => ({ text := missingKeyMessage, isError := true }, false)
  | some k =>
    if k = "" then ({ text := missingKeyMessage, isError := true }, false)
    else
      match searchFromOutcome outcome with
      | .ok result => ({ text := formatSearchResult result, isError := false }, true)
      | .error msg => ({ text := "Search error: " ++ msg, isError := true }, true)

/-- The `quota` tool handler (`src/index.ts` lines 225-274), a total
function with the same shape as the search handler: missing or empty
credential yields the error-flagged response with no network call,
otherwise the quota is fetched and formatted, and any thrown failure is
caught and wrapped as `Quota check error: <message>`. -/
def quotaToolHandler (apiKey : Option String)
    (outcome : FetchOutcome QuotaInfo) (lastUpdated : String) :
    ToolResponse × Bool :=
  match apiKey with
  | none => ({ text := missingKeyMessage, isError := true }, false)
  | some k =>
    if k = "" then ({ text := missingKeyMessage, isError := true }, false)
    else
      match getQuotaFromOutcome outcome with
      | .ok info => ({ text := formatQuota info lastUpdated, isError := false }, true)
      | .error msg => ({ text := "Quota check error: " ++ msg, isError := true }, true)

/-- Outcome of `server.connect(transport)` in `startServer`. -/
inductive ConnectOutcome where
  | ok
  | failure (msg : String)
deriving Repr, DecidableEq

/-- How `startServer` leaves the process. The constructors keep the order
of events: `exitBeforeConnect` happens before the transport is created,
so before any tool call is possible. -/
inductive StartResult where
  | exitBeforeConnect (code : Nat)
  | running
  | exitAfterConnectFailure (code : Nat)
deriving Repr, DecidableEq

/-- `startServer` (`src/index.ts` lines 356-376): read the credential from
the environment; `if (!apiKey)` (absent or empty) log and
`process.exit(1)` before the transport exists; otherwise connect, and on a
connect failure `process.exit(1)`. -/
def startServer (apiKey : Option String) (conn : ConnectOutcome) : StartResult :=
  match apiKey with
  | none => .exitBeforeConnect 1
  | some k =>
    if k = "" then .exitBeforeConnect 1
    else
      match conn with
      | .ok => .running
      | .failure _ => .exitAfterConnectFailure 1

/-- `t` occurs as a contiguous substring of `s`. -/
def containsStr (s t : String) : Prop :=
  ∃ a b, s = a ++ (t ++ b)

/-- Every supported language tag is a non-empty (truthy) string. -/
lemma supported_languages_nonempty : ∀ s ∈ SUPPORTED_LANGUAGES, s ≠ "" := by decide

/-- Claim C1: whenever the safety-level option is present, the serialized
`safe` query parameter is `"0"` exactly when the input level is 0 and `"1"`
for any nonzero input (so both 1 and 2 serialize to `"1"`), and the raw
value `"2"` is never passed through. -/
theorem safe_level_serialization (q : String) (o : SearchOptions) (s : Nat)
    (hs : o.safe = some s) :
    paramValue (buildSearchParams q (some o)) "safe" =
      some (if s = 0 then "0" else "1") ∧
    (s = 0 → paramValue (buildSearchParams q (some o)) "safe" = some "0") ∧
    (s ≠ 0 → paramValue (buildSearchParams q (some o)) "safe" = some "1") ∧
    paramValue (buildSearchParams q (some o)) "safe" ≠ some "2" := by
  obtain ⟨l, p, sf, t⟩ := o
  simp only at hs
  subst hs
  have key : paramValue (buildSearchParams q (some ⟨l, p, some s, t⟩)) "safe" =
      some (if s = 0 then "0" else "1") := by
    rcases l with _ | l <;> rcases p with _ | p <;>
      simp [buildSearchParams, paramValue, List.find?] <;>
      split_ifs <;> simp [List.find?]
  refine ⟨key, ?_, ?_, ?_⟩
  · intro h; simpa [h] using key
  · intro h; simpa [h] using key
  · rw [key]; split_ifs <;> simp

/-- Claim C2: for every valid search request (non-empty query, positive page
if present, safety level at most 2 if present, supported language tag if
present, valid time range if present) the built query-parameter list carries
`q=<query>` and has exactly the keys of the supplied optional parameters —
an absent optional parameter never appears. -/
theorem search_params_exact (q : String) (o : SearchOptions)
    (hq : q ≠ "")
    (hl : ∀ s, o.language = some s → s ∈ SUPPORTED_LANGUAGES)
    (hp : ∀ n, o.page = some n → 0 < n)
    (hsf : ∀ s, o.safe = some s → s ≤ 2)
    (ht : ∀ t, o.time_range = some t → t ∈ ["day", "week", "month", "year"]) :
    paramValue (buildSearchParams q (some o)) "q" = some q ∧
    (buildSearchParams q (some o)).map Prod.fst =
      "q" :: ((if o.language.isSome then ["language"] else []) ++
              (if o.page.isSome then ["page"] else []) ++
              (if o.safe.isSome then ["safe"] else []) ++
              (if o.time_range.isSome then ["time_range"] else [])) := by
  obtain ⟨l, p, sf, t⟩ := o
  simp only at hl hp hsf ht
  have hl' : ∀ s, l = some s → ¬ s = "" :=
    fun s h => supported_languages_nonempty s (hl s h)
  have hp' : ∀ n, p = some n → ¬ n = 0 := by
    intro n h
    have := hp n h
    omega
  have ht' : ∀ s, t = some s → ¬ s = "" := by
    intro s h
    have hm := ht s h
    simp only [List.mem_cons, List.not_mem_nil, or_false] at hm
    rcases hm with rfl | rfl | rfl | rfl <;> decide
  constructor
  · simp [buildSearchParams, paramValue, List.find?]
  · rcases l with _ | lv <;> rcases p with _ | pv <;>
      rcases sf with _ | sfv <;> rcases t with _ | tv <;>
      simp only [buildSearchParams] <;>
      (try rw [if_neg (hl' lv rfl)]) <;>
      (try rw [if_neg (hp' pv rfl)]) <;>
      (try rw [if_neg (ht' tv rfl)]) <;>
      simp

/-- Claim C9: a page value of 0 — accepted by the declared tool schema,
which is an unconstrained number — is silently omitted from the query
parameters (neither sent as `page=0` nor rejected); a `page` parameter is
appended exactly for truthy (nonzero) numbers. -/
theorem page_zero_schema_vs_query :
    pageSchemaAccepts 0 = true ∧
    (∀ q o, o.page = some 0 → ∀ v, ("page", v) ∉ buildSearchParams q (some o)) ∧
    (∀ q o n, o.page = some n → n ≠ 0 →
      ("page", toString n) ∈ buildSearchParams q (some o)) := by
  refine ⟨rfl, ?_, ?_⟩
  · intro q o h v
    obtain ⟨l, p, sf, t⟩ := o
    simp only at h
    subst h
    rcases l with _ | lv <;> rcases sf with _ | sfv <;> rcases t with _ | tv <;>
      simp [buildSearchParams] <;> split_ifs <;> simp
  · intro q o n h hn
    obtain ⟨l, p, sf, t⟩ := o
    simp only at h
    subst h
    rcases l with _ | lv <;> rcases sf with _ | sfv <;> rcases t with _ | tv <;>
      simp [buildSearchParams, hn] <;> split_ifs <;> simp

/-- Witness for C1 at the concrete input safe=2. -/
theorem safe_level_serialization_witness :
    (paramValue (buildSearchParams "x" (some { safe := some 2 })) "safe" =
      some (if 2 = 0 then "0" else "1") ∧
    (2 = 0 → paramValue (buildSearchParams "x" (some { safe := some 2 })) "safe" = some "0") ∧
    (2 ≠ 0 → paramValue (buildSearchParams "x" (some { safe := some 2 })) "safe" = some "1") ∧
    paramValue (buildSearchParams "x" (some { safe := some 2 })) "safe" ≠ some "2") :=
  safe_level_serialization "x" { safe := some 2 } 2 rfl

/-- Witness for C2 at a concrete fully-populated valid request. -/
theorem search_params_exact_witness :
    paramValue (buildSearchParams "x"
      (some ⟨some "en", some 2, some 1, some "day"⟩)) "q" = some "x" ∧
    (buildSearchParams "x"
      (some ⟨some "en", some 2, some 1, some "day"⟩)).map Prod.fst =
      "q" :: ((if (some "en" : Option String).isSome then ["language"] else []) ++
              (if (some (2 : Int)).isSome then ["page"] else []) ++
              (if (some (1 : Nat)).isSome then ["safe"] else []) ++
              (if (some "day" : Option String).isSome then ["time_range"] else [])) :=
  search_params_exact "x" ⟨some "en", some 2, some 1, some "day"⟩
    (by decide) (by decide) (by decide) (by decide) (by decide)

/-- Witness for C9 at page=0 and page=5. -/
theorem page_zero_schema_vs_query_witness :
    pageSchemaAccepts 0 = true ∧
    (∀ v, ("page", v) ∉ buildSearchParams "x" (some ⟨none, some 0, none, none⟩)) ∧
    ("page", toString (5 : Int)) ∈ buildSearchParams "x" (some ⟨none, some 5, none, none⟩) :=
  ⟨page_zero_schema_vs_query.1,
   fun v => page_zero_schema_vs_query.2.1 "x" ⟨none, some 0, none, none⟩ rfl v,
   page_zero_schema_vs_query.2.2 "x" ⟨none, some 5, none, none⟩ 5 rfl (by decide)⟩

/-- Claim C3: with the credential present, a non-2xx provider response makes
the search tool return an error-flagged response whose text carries the HTTP
status code and the failure message `Search request failed: <status> <text>`
wrapped as `Search error: ...`; a network failure is likewise caught and
wrapped. The handler `searchToolHandler` is a total function into
`ToolResponse × Bool`, so no failure propagates past the tool boundary in
the embedding. -/
theorem search_non2xx_tool_error (k : String) (st : Nat) (sx : String)
    (env : ApiResponse SearchResult)
    (hk : k ≠ "") (hst : respOk st = false) :
    (searchToolHandler (some k) (.response ⟨st, sx, env⟩)).1.isError = true ∧
    (searchToolHandler (some k) (.response ⟨st, sx, env⟩)).1.text =
      "Search error: " ++ ("Search request failed: " ++ toString st ++ " " ++ sx) ∧
    containsStr (searchToolHandler (some k) (.response ⟨st, sx, env⟩)).1.text
      (toString st) ∧
    (∀ msg, (searchToolHandler (some k) (.networkError msg)).1 =
      ⟨"Search error: " ++ msg, true⟩) := by
  have htext : (searchToolHandler (some k) (.response ⟨st, sx, env⟩)).1.text =
      "Search error: " ++ ("Search request failed: " ++ toString st ++ " " ++ sx) := by
    simp [searchToolHandler, searchFromOutcome, hk, hst]
  refine ⟨?_, htext, ?_, ?_⟩
  · simp [searchToolHandler, searchFromOutcome, hk, hst]
  · refine ⟨"Search error: Search request failed: ", " " ++ sx, ?_⟩
    rw [htext]
    simp only [← String.append_assoc]
    rfl
  · intro msg
    simp [searchToolHandler, searchFromOutcome, hk]

/-- Witness for C3 at a concrete 500 response. -/
theorem search_non2xx_tool_error_witness :
    ("key" : String) ≠ "" ∧ respOk 500 = false ∧
    ((searchToolHandler (some "key")
        (.response ⟨500, "Internal Server Error", ⟨"error", ⟨"q", [], none⟩⟩⟩)).1.isError = true ∧
      (searchToolHandler (some "key")
        (.response ⟨500, "Internal Server Error", ⟨"error", ⟨"q", [], none⟩⟩⟩)).1.text =
        "Search error: " ++ ("Search request failed: " ++ toString 500 ++ " " ++ "Internal Server Error") ∧
      containsStr (searchToolHandler (some "key")
        (.response ⟨500, "Internal Server Error", ⟨"error", ⟨"q", [], none⟩⟩⟩)).1.text
        (toString 500) ∧
      (∀ msg, (searchToolHandler (some "key") (.networkError msg)).1 =
        ⟨"Search error: " ++ msg, true⟩)) :=
  ⟨by decide, by decide,
   search_non2xx_tool_error "key" 500 "Internal Server Error" ⟨"error", ⟨"q", [], none⟩⟩
     (by decide) (by decide)⟩

/-- Claim C7: with the credential absent, both the search and the quota tool
return, for every possible HTTP outcome, the error-flagged response whose
text states that the TUNINGSEARCH_API_KEY environment variable is not set,
and the HTTP client is never invoked (second component `false`); the
handler returns normally rather than exiting the process. -/
theorem missing_key_tool_response :
    (∀ outcome, searchToolHandler none outcome = (⟨missingKeyMessage, true⟩, false)) ∧
    (∀ outcome lu, quotaToolHandler none outcome lu = (⟨missingKeyMessage, true⟩, false)) ∧
    containsStr missingKeyMessage
      "TUNINGSEARCH_API_KEY environment variable is not set" := by
  refine ⟨fun outcome => rfl, fun outcome lu => rfl, "Error: ", "", ?_⟩
  rfl

/-- Claim C8: when the TUNINGSEARCH_API_KEY environment variable is absent
at startup, `startServer` terminates the process with exit code 1 before
the transport is connected (constructor `exitBeforeConnect`), whatever the
connection would have done, so before any tool call is possible. -/
theorem missing_key_startup_exit :
    ∀ conn, startServer none conn = .exitBeforeConnect 1 := by
  intro conn
  rfl

/-- Claim C10: on every 2xx response, `search` and `getQuota` return the
envelope's `data` field whatever the envelope's own `status` field says,
and each client throws exactly when the HTTP response is non-2xx. -/
theorem envelope_status_ignored :
    (∀ (st : Nat) (sx es : String) (d : SearchResult), respOk st = true →
      searchFromOutcome (.response ⟨st, sx, ⟨es, d⟩⟩) = .ok d) ∧
    (∀ (st : Nat) (sx es : String) (d : QuotaInfo), respOk st = true →
      getQuotaFromOutcome (.response ⟨st, sx, ⟨es, d⟩⟩) = .ok d) ∧
    (∀ (st : Nat) (sx : String) (env : ApiResponse SearchResult),
      (∃ e, searchFromOutcome (.response ⟨st, sx, env⟩) = .error e) ↔ respOk st = false) ∧
    (∀ (st : Nat) (sx : String) (env : ApiResponse QuotaInfo),
      (∃ e, getQuotaFromOutcome (.response ⟨st, sx, env⟩) = .error e) ↔ respOk st = false) := by
  refine ⟨?_, ?_, ?_, ?_⟩
  · intro st sx es d h
    simp [searchFromOutcome, h]
  · intro st sx es d h
    simp [getQuotaFromOutcome, h]
  · intro st sx env
    constructor
    · rintro ⟨e, he⟩
      by_contra hok
      simp only [Bool.not_eq_false] at hok
      simp [searchFromOutcome, hok] at he
    · intro h
      exact ⟨"Search request failed: " ++ toString st ++ " " ++ sx,
        by simp [searchFromOutcome, h]⟩
  · intro st sx env
    constructor
    · rintro ⟨e, he⟩
      by_contra hok
      simp only [Bool.not_eq_false] at hok
      simp [getQuotaFromOutcome, hok] at he
    · intro h
      exact ⟨"Quota request failed: " ++ toString st ++ " " ++ sx,
        by simp [getQuotaFromOutcome, h]⟩

/-- Witness for C10 at a 200 response with a failure-marked envelope. -/
theorem envelope_status_ignored_witness :
    respOk 200 = true ∧
    searchFromOutcome (.response ⟨200, "OK", ⟨"failed", ⟨"q", [], none⟩⟩⟩) =
      .ok ⟨"q", [], none⟩ ∧
    ((∃ e, searchFromOutcome (.response ⟨500, "ISE", ⟨"ok", ⟨"q", [], none⟩⟩⟩) = .error e) ↔
      respOk 500 = false) :=
  ⟨by decide,
   envelope_status_ignored.1 200 "OK" "failed" ⟨"q", [], none⟩ (by decide),
   envelope_status_ignored.2.2.1 500 "ISE" ⟨"ok", ⟨"q", [], none⟩⟩⟩

/-- Claim C4: the formatted search text equals the `Query: "<query>"` header
followed by a blank line, the three-line `Title/Content/Link` blocks of the
items in order separated by blank lines, and a trailing
`\n\nSuggested queries: ...` line joined by `", "` exactly when the
suggestions list is present and non-empty; the given concrete input yields
exactly the claimed string, and an empty result list yields the header
alone (no item blocks, no suggestions line). -/
theorem format_search_result_spec :
    (∀ r : SearchResult, formatSearchResult r =
      "Query: \"" ++ r.query ++ "\"\n\n" ++
        String.intercalate "\n\n" (r.results.map (fun i =>
          "Title: " ++ i.title ++ "\nContent: " ++ i.content ++ "\nLink: " ++ i.url)) ++
        (match r.suggestions with
         | some s => if 0 < s.length
             then "\n\nSuggested queries: " ++ String.intercalate ", " s else ""
         | none => "")) ∧
    formatSearchResult ⟨"x", [⟨"T", "U", "C"⟩], some []⟩ =
      "Query: \"x\"\n\nTitle: T\nContent: C\nLink: U" ∧
    formatSearchResult ⟨"x", [], some []⟩ = "Query: \"x\"\n\n" ∧
    formatSearchResult ⟨"x", [], none⟩ = "Query: \"x\"\n\n" ∧
    formatSearchResult ⟨"x", [⟨"T", "U", "C"⟩], some ["a", "b"]⟩ =
      "Query: \"x\"\n\nTitle: T\nContent: C\nLink: U\n\nSuggested queries: a, b" :=
  ⟨fun r => rfl, rfl, rfl, rfl, rfl⟩

/-- The formatted quota text always carries the usage percentage between
the literal `Quota Usage: ` and `%`. -/
lemma formatQuota_contains_usage (info : QuotaInfo) (lu : String) :
    containsStr (formatQuota info lu)
      ("Quota Usage: " ++ jsQuotaUsagePct info.quota.usedQuota info.quota.totalQuota ++ "%") := by
  have e1 : (" queries\nQuota Usage: " : String) = " queries\n" ++ "Quota Usage: " := rfl
  have e2 : ("%\nQPS Limit: " : String) = "%" ++ "\nQPS Limit: " := rfl
  refine ⟨"TuningSearch Quota Information:\n            \nPlan: " ++ info.plan.name ++
      "\nMonthly Quota: " ++ toString info.quota.monthlyQuota ++
      " queries\nUsed Quota: " ++ toString info.quota.usedQuota ++
      " queries\nRemaining Quota: " ++ toString (info.quota.totalQuota - info.quota.usedQuota) ++
      " queries\n",
    "\nQPS Limit: " ++ toString info.plan.features.qps ++
      " queries per second\n\nLast Updated: " ++ lu, ?_⟩
  simp only [formatQuota]
  rw [e1, e2]
  simp only [String.append_assoc]

/-- The formatted quota text always carries the unclamped remaining quota
between the literal `Remaining Quota: ` and ` queries`. -/
lemma formatQuota_contains_remaining (info : QuotaInfo) (lu : String) :
    containsStr (formatQuota info lu)
      ("Remaining Quota: " ++ toString (info.quota.totalQuota - info.quota.usedQuota) ++
        " queries") := by
  have e1 : (" queries\nRemaining Quota: " : String) = " queries\n" ++ "Remaining Quota: " := rfl
  have e2 : (" queries\nQuota Usage: " : String) = " queries" ++ "\nQuota Usage: " := rfl
  refine ⟨"TuningSearch Quota Information:\n            \nPlan: " ++ info.plan.name ++
      "\nMonthly Quota: " ++ toString info.quota.monthlyQuota ++
      " queries\nUsed Quota: " ++ toString info.quota.usedQuota ++
      " queries\n",
    "\nQuota Usage: " ++ jsQuotaUsagePct info.quota.usedQuota info.quota.totalQuota ++
      "%\nQPS Limit: " ++ toString info.plan.features.qps ++
      " queries per second\n\nLast Updated: " ++ lu, ?_⟩
  simp only [formatQuota]
  rw [e1, e2]
  simp only [String.append_assoc]

/-- Claim C5: with a zero total quota, formatting the quota does not raise a
division error — JS number division by zero is total and yields the
IEEE sentinels — and the usage percentage renders as the defined
sentinel `NaN` (0/0) or `Infinity`/`-Infinity` rather than throwing;
the sentinel appears in the formatted text as `Quota Usage: <sentinel>%`. -/
theorem quota_zero_total_sentinel (info : QuotaInfo) (lu : String)
    (h : info.quota.totalQuota = 0) :
    jsQuotaUsagePct info.quota.usedQuota info.quota.totalQuota =
      (if info.quota.usedQuota = 0 then "NaN"
       else if 0 < info.quota.usedQuota then "Infinity" else "-Infinity") ∧
    containsStr (formatQuota info lu)
      ("Quota Usage: " ++ jsQuotaUsagePct info.quota.usedQuota info.quota.totalQuota ++ "%") := by
  refine ⟨?_, formatQuota_contains_usage info lu⟩
  rw [h]
  simp [jsQuotaUsagePct]

/-- Witness for C5 at used=7, total=0. -/
theorem quota_zero_total_sentinel_witness :
    jsQuotaUsagePct 7 0 =
      (if (7 : Int) = 0 then "NaN"
       else if 0 < (7 : Int) then "Infinity" else "-Infinity") ∧
    containsStr
      (formatQuota ⟨⟨"u", 100, 0, 7, 0, "free", none, "c", "t"⟩, ⟨"Free", 0, ⟨100, 1⟩⟩⟩ "d")
      ("Quota Usage: " ++ jsQuotaUsagePct 7 0 ++ "%") :=
  quota_zero_total_sentinel
    ⟨⟨"u", 100, 0, 7, 0, "free", none, "c", "t"⟩, ⟨"Free", 0, ⟨100, 1⟩⟩⟩ "d" rfl

/-- Claim C6: with a nonzero total quota the formatted text reports the
remaining quota as total minus used without clamping (negative when
used exceeds total, since the subtraction is on ℤ) and the usage
percentage as used/total × 100 rounded to the nearest integer (JS
`Math.round`, half toward +∞, modelled over exact rationals); in
particular used=50, total=100 reports `Remaining Quota: 50 queries`
and `Quota Usage: 50%`. -/
theorem quota_nonzero_total_report (info : QuotaInfo) (lu : String)
    (h : info.quota.totalQuota ≠ 0) :
    containsStr (formatQuota info lu)
      ("Remaining Quota: " ++ toString (info.quota.totalQuota - info.quota.usedQuota) ++
        " queries") ∧
    jsQuotaUsagePct info.quota.usedQuota info.quota.totalQuota =
      toString ⌊(info.quota.usedQuota : ℚ) / (info.quota.totalQuota : ℚ) * 100 + 1 / 2⌋ ∧
    containsStr (formatQuota info lu)
      ("Quota Usage: " ++ jsQuotaUsagePct info.quota.usedQuota info.quota.totalQuota ++ "%") ∧
    jsQuotaUsagePct 50 100 = "50" ∧
    containsStr
      (formatQuota ⟨⟨"u", 100, 0, 50, 100, "basic", none, "c", "t"⟩, ⟨"Basic", 10, ⟨100, 1⟩⟩⟩ "d")
      "Remaining Quota: 50 queries" ∧
    containsStr
      (formatQuota ⟨⟨"u", 100, 0, 50, 100, "basic", none, "c", "t"⟩, ⟨"Basic", 10, ⟨100, 1⟩⟩⟩ "d")
      "Quota Usage: 50%" := by
  have h50 : jsQuotaUsagePct 50 100 = "50" := by
    simp only [jsQuotaUsagePct, jsRound]
    norm_num
    decide
  refine ⟨formatQuota_contains_remaining info lu, ?_, formatQuota_contains_usage info lu,
    h50, ?_, ?_⟩
  · simp only [jsQuotaUsagePct, jsRound]
    rw [if_neg h, div_mul_eq_mul_div]
  · exact formatQuota_contains_remaining
      ⟨⟨"u", 100, 0, 50, 100, "basic", none, "c", "t"⟩, ⟨"Basic", 10, ⟨100, 1⟩⟩⟩ "d"
  · have c2 := formatQuota_contains_usage
      ⟨⟨"u", 100, 0, 50, 100, "basic", none, "c", "t"⟩, ⟨"Basic", 10, ⟨100, 1⟩⟩⟩ "d"
    rw [show jsQuotaUsagePct
        (⟨⟨"u", 100, 0, 50, 100, "basic", none, "c", "t"⟩, ⟨"Basic", 10, ⟨100, 1⟩⟩⟩ :
          QuotaInfo).quota.usedQuota
        (⟨⟨"u", 100, 0, 50, 100, "basic", none, "c", "t"⟩, ⟨"Basic", 10, ⟨100, 1⟩⟩⟩ :
          QuotaInfo).quota.totalQuota = "50" from h50] at c2
    exact c2

/-- Witness for C6 at used=50, total=100. -/
theorem quota_nonzero_total_report_witness :
    containsStr
      (formatQuota ⟨⟨"u", 100, 0, 50, 100, "basic", none, "c", "t"⟩, ⟨"Basic", 10, ⟨100, 1⟩⟩⟩ "d")
      ("Remaining Quota: " ++ toString ((100 : Int) - 50) ++ " queries") ∧
    jsQuotaUsagePct 50 100 =
      toString ⌊((50 : Int) : ℚ) / ((100 : Int) : ℚ) * 100 + 1 / 2⌋ ∧
    containsStr
      (formatQuota ⟨⟨"u", 100, 0, 50, 100, "basic", none, "c", "t"⟩, ⟨"Basic", 10, ⟨100, 1⟩⟩⟩ "d")
      ("Quota Usage: " ++ jsQuotaUsagePct 50 100 ++ "%") ∧
    jsQuotaUsagePct 50 100 = "50" ∧
    containsStr
      (formatQuota ⟨⟨"u", 100, 0, 50, 100, "basic", none, "c", "t"⟩, ⟨"Basic", 10, ⟨100, 1⟩⟩⟩ "d")
      "Remaining Quota: 50 queries" ∧
    containsStr
      (formatQuota ⟨⟨"u", 100, 0, 50, 100, "basic", none, "c", "t"⟩, ⟨"Basic", 10, ⟨100, 1⟩⟩⟩ "d")
      "Quota Usage: 50%" :=
  quota_nonzero_total_report
    ⟨⟨"u", 100, 0, 50, 100, "basic", none, "c", "t"⟩, ⟨"Basic", 10, ⟨100, 1⟩⟩⟩ "d" (by decide)
